import Mathlib

/-!
Verification development for the Lunacia-Dungeon payment-channel session
coordinator.  The definitions below are a shallow embedding of the backend
modules `nitrolite/session-create.ts`, `nitrolite/session-update.ts`, the
signature-collection module, the in-memory session storage module and the
Nitrolite RPC client.  JavaScript `Map` objects are embedded as
insertion-ordered association lists with unique keys; JavaScript `undefined`
is embedded as `Option.none`; thrown exceptions are embedded as the error
side of `Except`.  The asynchronous interaction with the external settlement
service is embedded by passing the outcome of the awaited exchange
(response, error frame, timeout, or an unready socket) as an explicit
argument, and each operation additionally reports the payload it sent over
the socket, if any, so that theorems can speak about the wire content.
-/

set_option autoImplicit false

namespace Lunacia

/-- Participant addresses are stable public address strings. -/
abbrev Addr := String

/-- Signatures travel as hex strings. -/
abbrev Sig := String

/-!
## JavaScript Map model

A JS `Map` iterates in insertion order and `set` on an existing key keeps the
original position, so it is embedded as an association list where `jsMapSet`
replaces in place or appends at the end.
-/

/-- Embeds `Map.prototype.get`: first (unique) entry with the given key. -/
def jsMapGet {α : Type} (m : List (String × α)) (k : String) : Option α :=
  match m with
  | [] => none
  | (k₁, v₁) :: rest => if k₁ = k then some v₁ else jsMapGet rest k

/-- Embeds `Map.prototype.set`: replace in place when the key is present,
append otherwise. -/
def jsMapSet {α : Type} (m : List (String × α)) (k : String) (v : α) :
    List (String × α) :=
  match m with
  | [] => [(k, v)]
  | (k₁, v₁) :: rest =>
      if k₁ = k then (k, v) :: rest else (k₁, v₁) :: jsMapSet rest k v

/-- Embeds `Map.prototype.delete` (keys are unique, so at most one entry
is removed). -/
def jsMapDelete {α : Type} (m : List (String × α)) (k : String) :
    List (String × α) :=
  match m with
  | [] => []
  | (k₁, v₁) :: rest =>
      if k₁ = k then rest else (k₁, v₁) :: jsMapDelete rest k

/-- Embeds `Map.prototype.size`. -/
def jsMapSize {α : Type} (m : List (String × α)) : Nat :=
  m.length

/-- Embeds `Map.prototype.get` applied to a possibly-`undefined` key.  The
keys actually stored are always strings, so looking up `undefined` finds
nothing. -/
def jsMapGetOpt {α : Type} (m : List (String × α)) (k : Option String) :
    Option α :=
  match k with
  | none => none
  | some a => jsMapGet m a

/-- Embeds the check `signature.startsWith("0x")`: the first two characters
are `0` and `x`.  (Stated over the character list so that concrete runs
reduce inside the kernel.) -/
def startsWith0x (s : String) : Bool :=
  match s.data with
  | c₁ :: c₂ :: _ => c₁ == '0' && c₂ == 'x'
  | _ => false

/-- Modelled from the external library: `ethers.getAddress` canonicalizes an
address to its checksum form.  It is idempotent and keeps distinct addresses
distinct, so over already-canonical address strings it is embedded as the
identity; the throw on a malformed address is outside the modelled domain. -/
def getAddress (a : Addr) : Addr :=
  a

/-!
## Data model

The records below mirror the object shapes built by
`generateAppSessionMessage`, the signature-collection module and
`closeAppSession`.  String fields that merely duplicate numeric timestamps in
ISO form, and free-text log payloads, are elided.
-/

/-- Embedded runtime errors: `jsError` for `throw new Error(msg)`,
`referenceError` for reading an identifier that is not in scope, and
`typeError` for indexing into a missing value. -/
inductive JsError where
  | jsError (msg : String)
  | referenceError (ident : String)
  | typeError
  deriving DecidableEq

/-- The `appDefinition` object of `generateAppSessionMessage`. -/
structure AppDefinition where
  protocol : String
  participants : List Addr
  weights : List Nat
  quorum : Nat
  challenge : Nat
  nonce : Nat
  deriving DecidableEq

/-- One entry of an `allocations` array. -/
structure AllocationEntry where
  participant : Addr
  asset : String
  amount : String
  deriving DecidableEq

/-- One entry of a `feeHistory` array (ISO duplicate of the timestamp and
free-form audit fields elided). -/
structure FeeEvent where
  event : String
  timestamp : Nat
  deriving DecidableEq

/-- One entry of a session `moves` array. -/
structure Move where
  player : Addr
  direction : String
  timestamp : Nat
  moveNumber : Nat
  deriving DecidableEq

/-- The `initialSessionData` object of `generateAppSessionMessage`
(metadata attached to the proposal; ISO-string duplicates elided). -/
structure InitialSessionData where
  gameType : String
  version : String
  protocol : String
  betAmount : String
  currency : String
  totalPot : String
  serverFee : String
  feeHistory : List FeeEvent
  startTime : Nat
  gameState : String
  moves : List Move
  totalMoves : Nat
  movesByPlayer : List (Addr × Nat)
  serverAddress : Addr
  nonce : Nat
  deriving DecidableEq

/-- The `appSessionData` object: definition, allocations and the serialized
session metadata (kept structured here; `JSON.stringify` is elided). -/
structure AppSessionData where
  definition : AppDefinition
  allocations : List AllocationEntry
  session_data : InitialSessionData
  deriving DecidableEq

/-- The request tuple `parsedMessage.req` returned by the external
`createAppSessionMessage`: `[requestId, method, params, timestamp]`. -/
structure RequestTuple where
  requestId : Nat
  method : String
  params : AppSessionData
  timestamp : Nat
  deriving DecidableEq

/-- The pending-session object stored by `setPendingSession` in
`generateAppSessionMessage`.  The stored object has no `participantB`
field, so reading it yields `undefined`; the field is embedded as an
`Option` that `generateAppSessionMessage` leaves at `none`. -/
structure PendingSession where
  appSessionData : AppSessionData
  appDefinition : AppDefinition
  participantA : Addr
  participantB : Option Addr
  serverAddress : Addr
  requestToSign : RequestTuple
  nonce : Nat
  signatures : List (Addr × Sig)
  serverSignature : Sig
  deriving DecidableEq

/-- The active-session object stored by `setAppSession` in
`createAppSessionWithSignatures`.  Its `participantB` field is copied from
the pending session, hence `undefined` in every reachable state. -/
structure AppSession where
  appSessionId : String
  participantA : Addr
  participantB : Option Addr
  serverAddress : Addr
  betAmount : String
  createdAt : Nat
  moves : List Move
  feeHistory : List FeeEvent
  deriving DecidableEq

/-- The in-memory session storage module: two maps keyed by room id. -/
structure SessionStore where
  pendingAppSessions : List (String × PendingSession)
  roomAppSessions : List (String × AppSession)
  deriving DecidableEq

/-- The storage module starts with both maps empty. -/
def emptyStore : SessionStore :=
  { pendingAppSessions := [], roomAppSessions := [] }

/-- Embeds `getPendingSession`. -/
def getPendingSession (st : SessionStore) (roomId : String) :
    Option PendingSession :=
  jsMapGet st.pendingAppSessions roomId

/-- Embeds `setPendingSession`. -/
def setPendingSession (st : SessionStore) (roomId : String)
    (p : PendingSession) : SessionStore :=
  { st with pendingAppSessions := jsMapSet st.pendingAppSessions roomId p }

/-- Embeds `deletePendingSession`. -/
def deletePendingSession (st : SessionStore) (roomId : String) :
    SessionStore :=
  { st with pendingAppSessions := jsMapDelete st.pendingAppSessions roomId }

/-- Embeds `getAppSession`. -/
def getAppSession (st : SessionStore) (roomId : String) : Option AppSession :=
  jsMapGet st.roomAppSessions roomId

/-- Embeds `setAppSession`. -/
def setAppSession (st : SessionStore) (roomId : String) (s : AppSession) :
    SessionStore :=
  { st with roomAppSessions := jsMapSet st.roomAppSessions roomId s }

/-- Embeds `deleteAppSession`. -/
def deleteAppSession (st : SessionStore) (roomId : String) : SessionStore :=
  { st with roomAppSessions := jsMapDelete st.roomAppSessions roomId }

/-!
## Session proposal (`generateAppSessionMessage`)
-/

/-- Environment supplied by the RPC client and the external
`createAppSessionMessage` call: the session-key address the service signs
with, the service signature over the request tuple, and the request id the
library assigns.  These are inputs the surrounding code obtains from the
singleton client, passed explicitly in the embedding. -/
structure ServerEnv where
  serverAddress : Addr
  serverSignature : Sig
  requestId : Nat
  deriving DecidableEq

/-- Return value of `generateAppSessionMessage`. -/
structure ProposeResult where
  appSessionData : AppSessionData
  appDefinition : AppDefinition
  participants : List Addr
  requestToSign : RequestTuple
  deriving DecidableEq

/-- Embeds `generateAppSessionMessage(roomId, participantA)`.  `now` stands
for `Date.now()`.  When a pending session already exists for the room the
stored proposal is returned unchanged; otherwise a fresh definition with
participants `[A, server]`, weights `[0, 100]`, quorum `100`, challenge `0`
and nonce `Date.now()` is built, signed and stored with an empty signature
map. -/
def generateAppSessionMessage (st : SessionStore) (roomId : String)
    (participantA : Addr) (now : Nat) (env : ServerEnv) :
    SessionStore × ProposeResult :=
  let formattedA := getAddress participantA
  match getPendingSession st roomId with
  | some pending =>
      (st,
        { appSessionData := pending.appSessionData
          appDefinition := pending.appDefinition
          participants := [pending.participantA, pending.serverAddress]
          requestToSign := pending.requestToSign })
  | none =>
      let serverAddress := getAddress env.serverAddress
      let nonce := now
      let appDefinition : AppDefinition :=
        { protocol := "NitroRPC/0.4"
          participants := [formattedA, serverAddress]
          weights := [0, 100]
          quorum := 100
          challenge := 0
          nonce := nonce }
      let betAmountString := "0"
      let serverFee := "0"
      let initialSessionData : InitialSessionData :=
        { gameType := "viper_duel"
          version := "1.0"
          protocol := "NitroRPC/0.4"
          betAmount := betAmountString
          currency := "usdc"
          totalPot := "0"
          serverFee := serverFee
          feeHistory := [{ event := "session_created", timestamp := now }]
          startTime := now
          gameState := "created"
          moves := []
          totalMoves := 0
          movesByPlayer := [(formattedA, 0)]
          serverAddress := serverAddress
          nonce := nonce }
      let appSessionData : AppSessionData :=
        { definition := appDefinition
          allocations :=
            [{ participant := formattedA, asset := "usdc", amount := "0" }]
          session_data := initialSessionData }
      let requestToSign : RequestTuple :=
        { requestId := env.requestId
          method := "create_app_session"
          params := appSessionData
          timestamp := now }
      let pending : PendingSession :=
        { appSessionData := appSessionData
          appDefinition := appDefinition
          participantA := formattedA
          participantB := none
          serverAddress := serverAddress
          requestToSign := requestToSign
          nonce := nonce
          signatures := []
          serverSignature := env.serverSignature }
      (setPendingSession st roomId pending,
        { appSessionData := appSessionData
          appDefinition := appDefinition
          participants := [formattedA, serverAddress]
          requestToSign := requestToSign })

/-!
## Signature collection (`addAppSessionSignature`)
-/

/-- Embeds `addAppSessionSignature(roomId, playerEOA, signature)`.  The
`signature` argument is `none` when the caller passed a non-string value
(the `typeof signature !== "string"` check).  A falsy or unprefixed string
is rejected without mutating state; a wrong-length string (length other
than 132) is only warned about and is stored anyway.  Returns the updated
store and the boolean `pending.signatures.size === 2`. -/
def addAppSessionSignature (st : SessionStore) (roomId : String)
    (playerEOA : Addr) (signature : Option String) : SessionStore × Bool :=
  match getPendingSession st roomId with
  | none => (st, false)
  | some pending =>
      let formattedAddress := getAddress playerEOA
      match signature with
      | none => (st, false)
      | some s =>
          if s = "" then (st, false)
          else if ¬ startsWith0x s then (st, false)
          else
            let pending' :=
              { pending with
                  signatures := jsMapSet pending.signatures formattedAddress s }
            (setPendingSession st roomId pending',
              jsMapSize pending'.signatures = 2)

/-- Number of collected signatures in the pending session of a room
(`pending.signatures.size`, or 0 when no pending session exists). -/
def pendingSignaturesCount (st : SessionStore) (roomId : String) : Nat :=
  match getPendingSession st roomId with
  | none => 0
  | some pending => jsMapSize pending.signatures

/-!
## The awaited settlement-service exchange

`createAppSessionWithSignatures`, `closeAppSession` and `submitAppState`
each send a payload over the shared socket and await, under a 30-second
timer, the first frame whose `res` method tag matches, or any `err` frame.
The embedding passes the outcome of that wait as an explicit argument.
-/

/-- Outcome of one awaited exchange with the settlement service: a matching
`res` frame (whose body may or may not carry an app session id), an `err`
frame, or expiry of the 30-second timer. -/
inductive LedgerOutcome where
  | success (appSessionId : Option String)
  | errorResponse (msg : String)
  | timeout
  deriving DecidableEq

/-!
## Quorum assembly (`createAppSessionWithSignatures`)
-/

/-- Equality of embedded fallible results is decidable, so that concrete
runs can be checked by evaluation. -/
instance instDecEqExcept {ε α : Type} [DecidableEq ε] [DecidableEq α] :
    DecidableEq (Except ε α) := fun x y =>
  match x, y with
  | .ok a, .ok b => decidable_of_iff (a = b) (by simp)
  | .error e, .error f => decidable_of_iff (e = f) (by simp)
  | .ok _, .error _ => isFalse (fun h => Except.noConfusion h)
  | .error _, .ok _ => isFalse (fun h => Except.noConfusion h)

/-- The final envelope `{req, sig}` sent for assembly.  Entries of `sig`
are `Option` values because a missing map entry contributes JavaScript
`undefined` (serialized as `null`) to the array. -/
structure Envelope where
  req : RequestTuple
  sig : List (Option Sig)
  deriving DecidableEq

/-- Instrumented result of `createAppSessionWithSignatures`: the storage
after the call, the app session id or the thrown error, and the envelope
sent over the socket, if the call reached the send. -/
structure CreateOutcome where
  store : SessionStore
  result : Except JsError String
  sent : Option Envelope
  deriving DecidableEq

/-- Embeds `createAppSessionWithSignatures(roomId)`.  Throws when no pending
session exists or fewer than the hardcoded 2 signatures are collected.
Builds the signature array
`[signatures.get(participantA), signatures.get(participantB), serverSignature]`
where `participantB` is an absent field, then sends and awaits by method
tag.  `wsReady` embeds `rpcClient.ws.readyState === 1`; `now` stands for
`Date.now()`.  On success the active session is stored and the pending
entry deleted; on any failure the storage is left untouched. -/
def createAppSessionWithSignatures (st : SessionStore) (roomId : String)
    (wsReady : Bool) (outcome : LedgerOutcome) (now : Nat) : CreateOutcome :=
  match getPendingSession st roomId with
  | none =>
      { store := st
        result := .error (.jsError "No pending app session")
        sent := none }
  | some pending =>
      if jsMapSize pending.signatures ≠ 2 then
        { store := st
          result := .error (.jsError "Not all signatures collected")
          sent := none }
      else
        let sigA := jsMapGet pending.signatures pending.participantA
        let sigB := jsMapGetOpt pending.signatures pending.participantB
        let completeRequest : Envelope :=
          { req := pending.requestToSign
            sig := [sigA, sigB, some pending.serverSignature] }
        if ¬ wsReady then
          { store := st
            result := .error (.jsError "RPC client WebSocket not connected")
            sent := none }
        else
          match outcome with
          | .timeout =>
              { store := st
                result :=
                  .error (.jsError "Timeout waiting for app session creation")
                sent := some completeRequest }
          | .errorResponse msg =>
              { store := st
                result := .error (.jsError ("Create app session failed: " ++ msg))
                sent := some completeRequest }
          | .success appSessionId? =>
              match appSessionId? with
              | none =>
                  { store := st
                    result :=
                      .error (.jsError "App session created but no ID returned")
                    sent := some completeRequest }
              | some appSessionId =>
                  match pending.appSessionData.allocations.head? with
                  | none =>
                      -- `allocations[0].amount` on an empty array throws
                      { store := st
                        result := .error .typeError
                        sent := some completeRequest }
                  | some alloc0 =>
                      let betAmount := alloc0.amount
                      let active : AppSession :=
                        { appSessionId := appSessionId
                          participantA := pending.participantA
                          participantB := pending.participantB
                          serverAddress := pending.serverAddress
                          betAmount := betAmount
                          createdAt := now
                          moves := []
                          feeHistory :=
                            [{ event := "session_created"
                               timestamp := pending.requestToSign.requestId },
                             { event := "game_started", timestamp := now }] }
                      { store :=
                          deletePendingSession
                            (setAppSession st roomId active) roomId
                        result := .ok appSessionId
                        sent := some completeRequest }

/-!
## Session close (`closeAppSession`)
-/

/-- Embeds the payout expression
`!formattedWinner ? session.betAmount : (formattedWinner === p ? totalPot.toString() : "0")`
inside the `players` block of `closeAppSession`.  The identifier `totalPot`
is not in scope anywhere in that function, so the branch that would read it
throws a `ReferenceError`. -/
def closePayout (formattedWinner : Option Addr) (betAmount : String)
    (participant : Option Addr) : Except JsError String :=
  match formattedWinner with
  | none => .ok betAmount
  | some w =>
      if some w = participant then .error (.referenceError "totalPot")
      else .ok "0"

/-- The subset of `finalSessionData` the close claims inspect: outcome,
payout lines of the `players` block, state tag, fee history with the
appended `game_ended` event, and the move log. -/
structure FinalSessionData where
  winner : Option Addr
  player1Payout : String
  player2Payout : String
  gameState : String
  feeHistory : List FeeEvent
  moves : List Move
  deriving DecidableEq

/-- The `closeData` payload `{app_session_id, allocations, session_data}`. -/
structure CloseData where
  app_session_id : String
  allocations : List AllocationEntry
  session_data : FinalSessionData
  deriving DecidableEq

/-- Embeds the allocation computation of `closeAppSession`: the source
assigns an empty array in the tie branch and an empty array in the winner
branch. -/
def closeAllocations (formattedWinner : Option Addr) :
    List AllocationEntry :=
  match formattedWinner with
  | none => []
  | some _ => []

/-- Instrumented result of `closeAppSession`: storage after the call, the
resolution or thrown error, and the close payload sent over the socket, if
the call reached the send. -/
structure CloseOutcome where
  store : SessionStore
  result : Except JsError Unit
  sent : Option CloseData
  deriving DecidableEq

/-- Embeds `closeAppSession(roomId, winnerEOA)`.  With no stored active
session it logs and resolves at once, sending nothing.  Otherwise it builds
`finalSessionData` (whose `players` payouts can throw a `ReferenceError`
on the out-of-scope `totalPot`), the empty allocation vector and the close
payload, sends it, and awaits by method tag; only a successful exchange
deletes the active session. -/
def closeAppSession (st : SessionStore) (roomId : String)
    (winnerEOA : Option Addr) (wsReady : Bool) (outcome : LedgerOutcome)
    (now : Nat) : CloseOutcome :=
  match getAppSession st roomId with
  | none => { store := st, result := .ok (), sent := none }
  | some session =>
      let formattedWinner := winnerEOA.map getAddress
      match closePayout formattedWinner session.betAmount
          (some session.participantA) with
      | .error e => { store := st, result := .error e, sent := none }
      | .ok player1Payout =>
          match closePayout formattedWinner session.betAmount
              session.participantB with
          | .error e => { store := st, result := .error e, sent := none }
          | .ok player2Payout =>
              let finalSessionData : FinalSessionData :=
                { winner := formattedWinner
                  player1Payout := player1Payout
                  player2Payout := player2Payout
                  gameState := "closed"
                  feeHistory :=
                    session.feeHistory ++
                      [{ event := "game_ended", timestamp := now }]
                  moves := session.moves }
              let allocations := closeAllocations formattedWinner
              let closeData : CloseData :=
                { app_session_id := session.appSessionId
                  allocations := allocations
                  session_data := finalSessionData }
              if ¬ wsReady then
                { store := st
                  result :=
                    .error (.jsError "RPC client WebSocket not connected")
                  sent := none }
              else
                match outcome with
                | .timeout =>
                    { store := st
                      result :=
                        .error (.jsError "Timeout waiting for session closure")
                      sent := some closeData }
                | .errorResponse msg =>
                    { store := st
                      result :=
                        .error (.jsError ("Close app session failed: " ++ msg))
                      sent := some closeData }
                | .success _ =>
                    { store := deleteAppSession st roomId
                      result := .ok ()
                      sent := some closeData }

/-!
## Checkpoint (`submitAppState`)
-/

/-- One entry of the checkpoint `allocations` array; the second entry names
`session.participantB`, which is `undefined` in every reachable state, so
the participant slot is an `Option`. -/
structure StateAllocationEntry where
  participant : Option Addr
  asset : String
  amount : String
  deriving DecidableEq

/-- The checkpoint payload `{app_session_id, allocations, session_data}`
(session metadata elided down to the fields the claims touch). -/
structure StateData where
  app_session_id : String
  allocations : List StateAllocationEntry
  gameState : String
  moves : List Move
  deriving DecidableEq

/-- Embeds the body of the `try` block of `submitAppState` once a session
was found: builds the constant-balance allocation vector and the updated
metadata, then sends and awaits by method tag.  Throws on an unready
socket, an `err` frame or the 30-second timeout. -/
def submitAppStateTry (session : AppSession) (wsReady : Bool)
    (outcome : LedgerOutcome) : Except JsError StateData :=
  let allocations : List StateAllocationEntry :=
    [{ participant := some session.participantA, asset := "usdc",
       amount := session.betAmount },
     { participant := session.participantB, asset := "usdc",
       amount := session.betAmount },
     { participant := some session.serverAddress, asset := "usdc",
       amount := "0" }]
  let stateData : StateData :=
    { app_session_id := session.appSessionId
      allocations := allocations
      gameState := "playing"
      moves := session.moves }
  if ¬ wsReady then
    .error (.jsError "RPC client WebSocket not connected")
  else
    match outcome with
    | .timeout => .error (.jsError "Timeout waiting for state submission")
    | .errorResponse msg =>
        .error (.jsError ("Submit app state failed: " ++ msg))
    | .success _ => .ok stateData

/-- Embeds `submitAppState(roomId, gameStateUpdate)`.  With no active
session it returns at once.  Otherwise it runs the `try` block; the `catch`
clause logs the error and deliberately does not rethrow, and the function
never writes to the session storage. -/
def submitAppState (st : SessionStore) (roomId : String) (wsReady : Bool)
    (outcome : LedgerOutcome) : SessionStore × Except JsError Unit :=
  match getAppSession st roomId with
  | none => (st, .ok ())
  | some session =>
      match submitAppStateTry session wsReady outcome with
      | .ok _ => (st, .ok ())
      | .error _ => (st, .ok ())

/-!
## Request correlation engine (`NitroliteRPCClient`)
-/

/-- The correlation-relevant state of `NitroliteRPCClient`: the connection
status string, the ids with a registered `(resolve, reject)` entry in
`pendingRequests` (in insertion order), and `nextRequestId`. -/
structure RPCClientState where
  status : String
  pendingRequests : List Nat
  nextRequestId : Nat
  deriving DecidableEq

/-- Embeds the `close` listener installed by `connect()`: it logs and sets
the status to `disconnected`.  The second component lists the ids of the
pending entries the handler rejects — the source handler rejects none. -/
def onWsClose (c : RPCClientState) : RPCClientState × List Nat :=
  ({ c with status := "disconnected" }, [])

/-- Embeds the per-request 10-second timer armed by `sendRequest`: when the
id is still registered it is deregistered and rejected (the second
component lists the rejected ids). -/
def onRequestTimeout (c : RPCClientState) (id : Nat) :
    RPCClientState × List Nat :=
  if c.pendingRequests.contains id then
    ({ c with pendingRequests := c.pendingRequests.filter (· ≠ id) }, [id])
  else
    (c, [])

/-- Embeds the registration step of `sendRequest`: allocate the next id and
record the pending entry. -/
def sendRequestRegister (c : RPCClientState) : RPCClientState × Nat :=
  ({ c with
      pendingRequests := c.pendingRequests ++ [c.nextRequestId]
      nextRequestId := c.nextRequestId + 1 },
    c.nextRequestId)

/-- Discriminates the two sides of an embedded fallible result. -/
def exceptIsOk {ε α : Type} : Except ε α → Bool
  | .ok _ => true
  | .error _ => false

/-!
## Concrete sample run

A small concrete trace used by the closed witness and counterexample
theorems: one room, the proposal generated for player `addrA`, and
signatures submitted by `addrA` and by the unrelated addresses `addrB`
and `addrC`.
-/

/-- Sample room id. -/
def roomId1 : String := "room1"

/-- Sample player address (the sole player of the proposal). -/
def addrA : Addr := "0xAlice"

/-- Sample address of a second, unrelated signer. -/
def addrB : Addr := "0xBob"

/-- Sample address of a third, unrelated signer. -/
def addrC : Addr := "0xCarol"

/-- Sample server environment. -/
def env1 : ServerEnv :=
  { serverAddress := "0xServer", serverSignature := "0xservsig",
    requestId := 4000 }

/-- Sample signature submitted by `addrA`. -/
def sigA : Sig := "0xsiga"

/-- Sample signature submitted by `addrB`. -/
def sigB : Sig := "0xsigb"

/-- Sample signature submitted by `addrC`. -/
def sigC : Sig := "0xsigc"

/-- Store after generating the proposal for `addrA` in an empty store. -/
def st1 : SessionStore :=
  (generateAppSessionMessage emptyStore roomId1 addrA 5000 env1).1

/-- The proposal generated for `addrA`. -/
def prop1 : ProposeResult :=
  (generateAppSessionMessage emptyStore roomId1 addrA 5000 env1).2

/-- Store after `addrA` signed. -/
def st2 : SessionStore :=
  (addAppSessionSignature st1 roomId1 addrA (some sigA)).1

/-- Store after `addrA` and `addrB` signed (the hardcoded count of 2 is
reached). -/
def st3 : SessionStore :=
  (addAppSessionSignature st2 roomId1 addrB (some sigB)).1

/-- Store after `addrA`, `addrB` and `addrC` signed. -/
def st4 : SessionStore :=
  (addAppSessionSignature st3 roomId1 addrC (some sigC)).1

/-- The assembly run on `st3` with a successful acknowledgment `S1`. -/
def createRun3 : CreateOutcome :=
  createAppSessionWithSignatures st3 roomId1 true (.success (some "S1")) 9000

/-- Store holding the active session `S1` after successful assembly. -/
def stActive : SessionStore :=
  createRun3.store

/-- Sample RPC client state right after authentication. -/
def client1 : RPCClientState :=
  { status := "connected", pendingRequests := [], nextRequestId := 1 }

/-- Sample RPC client state with one outstanding request (id 1). -/
def client2 : RPCClientState :=
  (sendRequestRegister client1).1

/-!
## Basic lemmas about the JS Map model
-/

/-- Looking up the key just written finds the written value. -/
theorem jsMapGet_jsMapSet_same {α : Type} (m : List (String × α))
    (k : String) (v : α) : jsMapGet (jsMapSet m k v) k = some v := by
  induction m with
  | nil => simp [jsMapGet, jsMapSet]
  | cons hd tl ih =>
      obtain ⟨k₁, v₁⟩ := hd
      by_cases h : k₁ = k
      · simp [jsMapGet, jsMapSet, h]
      · simp [jsMapGet, jsMapSet, h, ih]

/-- One `set` grows the map by at most one entry. -/
theorem jsMapSize_jsMapSet_le {α : Type} (m : List (String × α))
    (k : String) (v : α) : jsMapSize (jsMapSet m k v) ≤ jsMapSize m + 1 := by
  induction m with
  | nil => simp [jsMapSize, jsMapSet]
  | cons hd tl ih =>
      obtain ⟨k₁, v₁⟩ := hd
      by_cases h : k₁ = k
      · simp [jsMapSize, jsMapSet, h]
      · simpa [jsMapSize, jsMapSet, h] using ih

/-- A freshly stored pending session is found again under its room id. -/
theorem getPendingSession_setPendingSession (st : SessionStore) (k : String)
    (p : PendingSession) :
    getPendingSession (setPendingSession st k p) k = some p := by
  simp [getPendingSession, setPendingSession, jsMapGet_jsMapSet_same]

/-!
## Claim theorems
-/

/-- Claim C1: the proposal built by `generateAppSessionMessage` has 2
participants, so the spec requires `participantOrder.length - 1 = 1` player
signature; yet with exactly 1 player signature collected
`addAppSessionSignature` reports the quorum incomplete and
`createAppSessionWithSignatures` throws — both hardcode a count of 2, which
is the full participant count, not the count excluding the service.  This
evaluates the code at the failing input. -/
theorem claim_C1_required_signature_count :
    prop1.appDefinition.participants.length - 1 = 1 ∧
    pendingSignaturesCount st2 roomId1 = 1 ∧
    (addAppSessionSignature st1 roomId1 addrA (some sigA)).2 = false ∧
    (createAppSessionWithSignatures st2 roomId1 true
        (.success (some "S1")) 9000).result =
      .error (.jsError "Not all signatures collected") := by
  decide

/-- Claim C2: on an active session, a tie close sends an empty allocation
vector rather than refunding each participant, and a close naming the
winning participant throws a `ReferenceError` on the out-of-scope
`totalPot` before anything is sent — the code never computes the
winner-take-all or refund allocations the spec describes.  This evaluates
the code at the failing inputs. -/
theorem claim_C2_close_allocations :
    (closeAppSession stActive roomId1 none true (.success none) 10000).sent.map
        CloseData.allocations = some [] ∧
    (closeAppSession stActive roomId1 (some addrA) true (.success none)
        10000).result = .error (.referenceError "totalPot") ∧
    (closeAppSession stActive roomId1 (some addrA) true (.success none)
        10000).sent = none := by
  decide

/-- Claim C3: the proposal definition lists 2 participants
`[player, service]`, so the spec-shaped envelope would carry the player
signature followed by the service signature; the code instead sends a
3-slot array whose middle entry is the lookup under the absent
`participantB` field, i.e. `undefined` — an extra entry that corresponds to
no participant — and the assembly nevertheless reports success.  This
evaluates the code at the failing input. -/
theorem claim_C3_envelope_signature_order :
    prop1.appDefinition.participants = [addrA, env1.serverAddress] ∧
    createRun3.sent.map Envelope.sig =
      some [some sigA, none, some env1.serverSignature] ∧
    createRun3.sent.map Envelope.sig ≠
      some [some sigA, some env1.serverSignature] ∧
    createRun3.result = .ok "S1" := by
  decide

/-- Claim C4, counterexample: the prefixed signature `0xab` has the wrong
length (4, not 132), yet `addAppSessionSignature` stores it — the
collected-signature map grows from 0 to 1 entries, refuting the claim that
a wrong-length signature leaves the map unchanged. -/
theorem claim_C4_counterexample :
    pendingSignaturesCount st1 roomId1 = 0 ∧
    pendingSignaturesCount
        (addAppSessionSignature st1 roomId1 addrA (some "0xab")).1 roomId1 =
      1 := by
  decide

/-- Claim C4, amended: a signature that is not a string, or is a string
without the `0x` marker (including the empty string), is rejected with
`false` and leaves the store — in particular the collected-signature map —
unchanged; a wrong-length signature bearing the marker is stored after only
a warning. -/
theorem claim_C4_malformed_signature_amended (st : SessionStore)
    (roomId : String) (eoa : Addr) (s : String)
    (hpre : ¬ startsWith0x s) :
    addAppSessionSignature st roomId eoa (some s) = (st, false) ∧
    addAppSessionSignature st roomId eoa none = (st, false) := by
  unfold addAppSessionSignature
  cases h : getPendingSession st roomId with
  | none => exact ⟨rfl, rfl⟩
  | some pending =>
      refine ⟨?_, rfl⟩
      by_cases hs : s = ""
      · simp [hs]
      · simp [hs, hpre]

/-- Witness for claim C4: the unprefixed string and the non-string value
are both rejected on the concrete store. -/
theorem claim_C4_witness :
    addAppSessionSignature st1 roomId1 addrA (some "nohex") = (st1, false) ∧
    addAppSessionSignature st1 roomId1 addrA none = (st1, false) :=
  claim_C4_malformed_signature_amended st1 roomId1 addrA "nohex" (by decide)

/-- Claim C5, counterexample: the proposal definition has 2 participants,
yet after the unrelated addresses `addrB` and `addrC` also submit
signatures the collected-signature map holds 3 entries — the cardinality
exceeds the participant count because no membership check is performed. -/
theorem claim_C5_counterexample :
    prop1.appDefinition.participants.length = 2 ∧
    pendingSignaturesCount st4 roomId1 = 3 := by
  decide

/-- Claim C5, amended: the collected-signature map is not bounded by the
participant count (no membership check is performed); each
`addAppSessionSignature` call grows its cardinality by at most one, so the
cardinality is bounded only by the number of calls made. -/
theorem claim_C5_signature_map_growth_amended (st : SessionStore)
    (roomId : String) (eoa : Addr) (s? : Option String) :
    pendingSignaturesCount
        (addAppSessionSignature st roomId eoa s?).1 roomId ≤
      pendingSignaturesCount st roomId + 1 := by
  unfold addAppSessionSignature
  cases h : getPendingSession st roomId with
  | none => simp [pendingSignaturesCount, h]
  | some pending =>
      cases s? with
      | none => simp [pendingSignaturesCount, h]
      | some s =>
          by_cases hs : s = ""
          · simp [pendingSignaturesCount, h, hs]
          · by_cases hp : startsWith0x s
            · simp [hs, hp, pendingSignaturesCount, h,
                getPendingSession_setPendingSession, jsMapSize_jsMapSet_le]
            · simp [pendingSignaturesCount, h, hs, hp]

/-- Claim C6: a second `generateAppSessionMessage` call for a room whose
store already holds a pending session returns the stored proposal unchanged
— same definition, nonce and request tuple — and leaves the store
untouched, regardless of the arguments and environment of the second
call. -/
theorem claim_C6_propose_idempotent (st : SessionStore) (roomId : String)
    (pA₁ pA₂ : Addr) (now₁ now₂ : Nat) (e₁ e₂ : ServerEnv) :
    generateAppSessionMessage
        (generateAppSessionMessage st roomId pA₁ now₁ e₁).1 roomId pA₂ now₂
        e₂ =
      generateAppSessionMessage st roomId pA₁ now₁ e₁ := by
  unfold generateAppSessionMessage
  cases h : getPendingSession st roomId with
  | some pending => simp [h]
  | none => simp [h, getPendingSession_setPendingSession]

/-- Claim C7: whenever `createAppSessionWithSignatures` fails — among the
failures are the 30-second timeout and an explicit error frame — the store
is returned exactly as it was, pending session, signatures and nonce
included; the pending entry is deleted only on the success path. -/
theorem claim_C7_pending_preserved_on_failure (st : SessionStore)
    (roomId : String) (wsReady : Bool) (outcome : LedgerOutcome)
    (now : Nat) :
    (exceptIsOk
        (createAppSessionWithSignatures st roomId wsReady outcome
          now).result = false →
      (createAppSessionWithSignatures st roomId wsReady outcome now).store =
        st) ∧
    exceptIsOk
        (createAppSessionWithSignatures st roomId wsReady .timeout
          now).result = false ∧
    ∀ msg,
      exceptIsOk
          (createAppSessionWithSignatures st roomId wsReady
            (.errorResponse msg) now).result = false := by
  unfold createAppSessionWithSignatures
  cases h : getPendingSession st roomId with
  | none => simp [exceptIsOk]
  | some pending =>
      by_cases hq : jsMapSize pending.signatures ≠ 2
      · simp [hq, exceptIsOk]
      · cases hws : wsReady with
        | false => simp [hq, hws, exceptIsOk]
        | true =>
            cases outcome with
            | timeout => simp [hq, hws, exceptIsOk]
            | errorResponse msg => simp [hq, hws, exceptIsOk]
            | success appSessionId? =>
                cases appSessionId? with
                | none => simp [hq, hws, exceptIsOk]
                | some appSessionId =>
                    cases hh : pending.appSessionData.allocations.head? with
                    | none => simp [hq, hws, hh, exceptIsOk]
                    | some alloc0 => simp [hq, hws, hh, exceptIsOk]

/-- Witness for claim C7: the timeout on the fully signed concrete store is
a failure and preserves the store. -/
theorem claim_C7_witness :
    exceptIsOk
        (createAppSessionWithSignatures st3 roomId1 true .timeout
          9000).result = false ∧
    (createAppSessionWithSignatures st3 roomId1 true .timeout 9000).store =
      st3 :=
  ⟨(claim_C7_pending_preserved_on_failure st3 roomId1 true .timeout 9000).2.1,
   (claim_C7_pending_preserved_on_failure st3 roomId1 true .timeout 9000).1
     (by decide)⟩

/-- Claim C8: `submitAppState` resolves without throwing for every outcome
of the ledger exchange — timeout, error frame, unready socket or success —
and never writes to the session storage. -/
theorem claim_C8_checkpoint_swallows_failures (st : SessionStore)
    (roomId : String) (wsReady : Bool) (outcome : LedgerOutcome) :
    submitAppState st roomId wsReady outcome = (st, .ok ()) := by
  unfold submitAppState
  cases h : getAppSession st roomId with
  | none => rfl
  | some session =>
      cases htry : submitAppStateTry session wsReady outcome with
      | ok v => simp [htry]
      | error e => simp [htry]

/-- Claim C9, counterexample: with one outstanding request registered, the
close handler rejects no pending entry and the entry remains registered —
refuting the claim that every pending entry is rejected immediately when
the connection closes. -/
theorem claim_C9_counterexample :
    client2.pendingRequests = [1] ∧
    (onWsClose client2).2 = [] ∧
    (onWsClose client2).1.pendingRequests = [1] := by
  decide

/-- Claim C9, amended: the close handler installed by `connect` only sets
the status to `disconnected`; it rejects nothing and leaves every pending
entry registered, and each entry is rejected only when its own 10-second
request timer deregisters it. -/
theorem claim_C9_close_handler_amended (c : RPCClientState) (id : Nat) :
    (onWsClose c).1.status = "disconnected" ∧
    (onWsClose c).1.pendingRequests = c.pendingRequests ∧
    (onWsClose c).2 = [] ∧
    onRequestTimeout c id =
      (if c.pendingRequests.contains id then
        ({ c with pendingRequests := c.pendingRequests.filter (· ≠ id) },
          [id])
      else (c, [])) :=
  ⟨rfl, rfl, rfl, rfl⟩

/-- Claim C10: closing a room that has no stored active session resolves
without throwing, sends nothing over the socket and leaves the store
unchanged. -/
theorem claim_C10_close_missing_session_noop (st : SessionStore)
    (roomId : String) (winnerEOA : Option Addr) (wsReady : Bool)
    (outcome : LedgerOutcome) (now : Nat)
    (h : getAppSession st roomId = none) :
    closeAppSession st roomId winnerEOA wsReady outcome now =
      { store := st, result := .ok (), sent := none } := by
  unfold closeAppSession
  simp [h]

/-- Witness for claim C10: closing the empty store is a silent no-op. -/
theorem claim_C10_witness :
    closeAppSession emptyStore roomId1 (some addrA) true .timeout 10000 =
      { store := emptyStore, result := .ok (), sent := none } :=
  claim_C10_close_missing_session_noop emptyStore roomId1 (some addrA) true
    .timeout 10000 (by decide)

end Lunacia
